import Mathlib

/-!
Verification development for the Business Systems automation repository.

The repository ships a React dashboard (`src/App.jsx`) together with a
Google Apps Script automation suite (`BusinessSystemsAutomation.gs`,
`DataValidationAndBackup.gs`) described by the project's specification and
setup guide; the Apps Script sources themselves are not part of the
checked-in source tree, so the automation components below are modelled
from the specification.  The dashboard definitions at the end of the file
are translated directly from `src/App.jsx`.
-/

namespace BizAuto

/-! ## Calendar dates -/

/-- Modelled from the spec: calendar dates used for `dueDate`,
`completedAt` and the Generator's target-date arithmetic (§4.2). -/
structure Date where
  year : Nat
  month : Nat
  day : Nat
deriving DecidableEq

/-- Modelled from the spec: Gregorian leap-year rule used by the monthly
calendar arithmetic of the Generator (§4.2). -/
def isLeapYear (y : Nat) : Bool :=
  (y % 4 == 0 && y % 100 != 0) || (y % 400 == 0)

/-- Modelled from the spec: number of days in a month, used to clamp a
monthly rollover to the last valid day of a shorter month (§4.2). -/
def daysInMonth (y m : Nat) : Nat :=
  if m = 2 then (if isLeapYear y then 29 else 28)
  else if m = 4 ∨ m = 6 ∨ m = 9 ∨ m = 11 then 30
  else 31

/-- A well-formed calendar date. -/
def Date.Valid (d : Date) : Prop :=
  1 ≤ d.month ∧ d.month ≤ 12 ∧ 1 ≤ d.day ∧ d.day ≤ daysInMonth d.year d.month

instance (d : Date) : Decidable d.Valid := by
  unfold Date.Valid; infer_instance

/-- Strict chronological order on dates (year, then month, then day). -/
def Date.lt (a b : Date) : Prop :=
  a.year < b.year ∨
    (a.year = b.year ∧
      (a.month < b.month ∨ (a.month = b.month ∧ a.day < b.day)))

instance (a b : Date) : Decidable (Date.lt a b) := by
  unfold Date.lt; infer_instance

/-- Modelled from the spec: `max(completedAt, dueDate)` used as the base of
the Generator's next-occurrence computation (§4.2). -/
def maxDate (a b : Date) : Date :=
  if Date.lt a b then b else a

/-- The day immediately after `d`, rolling over months and years. -/
def nextDay (d : Date) : Date :=
  if d.day < daysInMonth d.year d.month then ⟨d.year, d.month, d.day + 1⟩
  else if d.month < 12 then ⟨d.year, d.month + 1, 1⟩
  else ⟨d.year + 1, 1, 1⟩

/-- Modelled from the spec: calendar arithmetic `+n days` (Daily is `+1`,
Weekly is `+7`, §4.2). -/
def addDays (d : Date) : Nat → Date
  | 0 => d
  | n + 1 => addDays (nextDay d) n

/-- Modelled from the spec: `+1 calendar month, clamped to the last valid
day if the month is shorter` (§4.2). -/
def addMonthClamped (d : Date) : Date :=
  if d.month < 12 then
    ⟨d.year, d.month + 1, min d.day (daysInMonth d.year (d.month + 1))⟩
  else
    ⟨d.year + 1, 1, min d.day (daysInMonth (d.year + 1) 1)⟩

/-- Modelled from the spec: the next occurrence strictly after a base date
for a recurrence frequency: Daily `+1` day, Weekly `+7` days, Monthly `+1`
calendar month clamped (§4.2).  Frequencies are the sheet's string domain
`One-time | Daily | Weekly | Monthly` (§3, setup guide). -/
def nextOccurrence (freq : String) (d : Date) : Date :=
  if freq = "Daily" then addDays d 1
  else if freq = "Weekly" then addDays d 7
  else if freq = "Monthly" then addMonthClamped d
  else d

/-! ## Data model (§3) -/

/-- Modelled from the spec: a row of the Master Task Sheet (§3).  The
enumerated fields carry the sheet's string domains so the Validator's
domain check is meaningful.  `templateId` realises the Generator's
idempotence key `(templateId, targetDate)` (§4.2, glossary): it records
which recurring template a generated instance came from (`none` for
user-created rows). -/
structure Task where
  id : String
  name : String
  assignee : String
  dueDate : Date
  priority : String
  status : String
  frequency : String
  completedAt : Option Date
  category : Option String
  suggestedDeadline : Option Date
  templateId : Option String
deriving DecidableEq

/-- Modelled from the spec: a row of the Delegation Tracker (§3). -/
structure Delegation where
  taskRef : String
  responsible : String
  deadline : Date
  status : String
  feedback : String
  workloadScore : Nat
deriving DecidableEq

/-- Modelled from the spec: a row of the KPI Dashboard (§3). -/
structure KpiEntry where
  employee : String
  department : String
  kpiName : String
  target : Nat
  actual : Nat
  date : Date
  status : String
  trend : String
deriving DecidableEq

/-- Modelled from the spec: a row of the Team Members sheet (§3). -/
structure TeamMember where
  name : String
  email : String
  department : String
  role : String
  manager : Option String
deriving DecidableEq

/-- Modelled from the spec: the tabular store's four sheets (§3, §6). -/
structure StoreData where
  tasks : List Task
  delegations : List Delegation
  teamMembers : List TeamMember
  kpis : List KpiEntry
deriving DecidableEq

def sheetTasks : String := "Master Task Sheet"
def sheetDelegations : String := "Delegation Tracker"
def sheetKpis : String := "KPI Dashboard"
def sheetMembers : String := "Team Members"

/-- The sheets a restore overwrites (all four, §4.5). -/
def allSheets : List String :=
  [sheetTasks, sheetDelegations, sheetKpis, sheetMembers]

/-! ## Recurring Task Generator (§4.2) -/

/-- Modelled from the spec: a recurring template is any Task row with
`frequency ≠ OneTime` (§4.2); the sheet value is `One-time`. -/
def isRecurring (t : Task) : Bool :=
  !(t.frequency == "One-time")

/-- Modelled from the spec: a malformed template is one with a missing
assignee reference; it is skipped with a per-row warning (§4.2). -/
def validTemplate (t : Task) : Bool :=
  !(t.assignee == "")

/-- Modelled from the spec: the base of the next-occurrence computation,
`max(completedAt, dueDate)` (§4.2); an uncompleted template uses its
`dueDate` alone. -/
def baseDate (tpl : Task) : Date :=
  match tpl.completedAt with
  | some c => maxDate c tpl.dueDate
  | none => tpl.dueDate

/-- Modelled from the spec: `targetDate` = next occurrence strictly after
`max(completedAt, dueDate)` under the template's frequency (§4.2). -/
def targetDate (tpl : Task) : Date :=
  nextOccurrence tpl.frequency (baseDate tpl)

/-- Modelled from the spec: the store query for an existing Task with
idempotence key `(templateId, targetDate)` (§4.2). -/
def hasKey (store : List Task) (tid : String) (d : Date) : Bool :=
  store.any fun t => decide (t.templateId = some tid ∧ t.dueDate = d)

/-- Number of Task rows in the store carrying idempotence key
`(tid, d)`. -/
def countKey (store : List Task) (tid : String) (d : Date) : Nat :=
  store.countP fun t => decide (t.templateId = some tid ∧ t.dueDate = d)

/-- Fresh unique id assigned to a generated task instance (§4.2). -/
def freshTaskId (n : Nat) : String :=
  "GEN-" ++ toString n

/-- Modelled from the spec: the Task created for a template at its target
date — fresh id, `name`/`assignee`/`priority`/`frequency` copied from the
template, `dueDate = targetDate`, `status = ToDo` (§4.2). -/
def instantiate (tpl : Task) (d : Date) (n : Nat) : Task :=
  { id := freshTaskId n
    name := tpl.name
    assignee := tpl.assignee
    dueDate := d
    priority := tpl.priority
    status := "To Do"
    frequency := tpl.frequency
    completedAt := none
    category := none
    suggestedDeadline := none
    templateId := some tpl.id }

/-- Generator state threaded through one invocation: the task store, the
fresh-id counter, and the invocation's audit counts (created rows and
skipped-malformed warnings). -/
structure GenState where
  store : List Task
  nextId : Nat
  created : Nat
  errors : Nat
deriving DecidableEq

/-- Modelled from the spec: processing of one template by the Generator —
non-recurring rows are ignored, a malformed template is skipped with a
warning, an existing `(templateId, targetDate)` key is skipped as a no-op,
and otherwise a fresh instance is inserted (§4.2). -/
def genStep (st : GenState) (tpl : Task) : GenState :=
  if !(isRecurring tpl) then st
  else if !(validTemplate tpl) then { st with errors := st.errors + 1 }
  else if hasKey st.store tpl.id (targetDate tpl) then st
  else
    { st with
      store := instantiate tpl (targetDate tpl) st.nextId :: st.store
      nextId := st.nextId + 1
      created := st.created + 1 }

/-- Modelled from the spec: one Generator invocation over the template
rows (all Task rows of the window, §4.2), processed left to right. -/
def runGenerator (templates : List Task) (st : GenState) : GenState :=
  templates.foldl genStep st

/-! ## Trigger Scheduler (§4.1) -/

/-- Modelled from the spec: invocation outcomes recorded in the audit log
(§3). -/
inductive Outcome where
  | success
  | partialFailure
  | failure
  | skippedLocked
deriving DecidableEq

/-- Modelled from the spec: schedule cadences (§3). -/
inductive Cadence where
  | hourly
  | dailyAt (hh mm : Nat)
  | weeklyAt (weekday hh mm : Nat)
deriving DecidableEq

/-- Modelled from the spec: a schedule-registry entry (§3). -/
structure ScheduleEntry where
  jobName : String
  cadence : Cadence
  lastRunAt : Option Nat
  lastStatus : Option Outcome
deriving DecidableEq

/-- Modelled from the spec: an advisory, time-boxed run lock (§3). -/
structure RunLock where
  jobName : String
  acquiredAt : Nat
  ttl : Nat
deriving DecidableEq

/-- Modelled from the spec: an append-only audit record (§3). -/
structure AuditRecord where
  timestamp : Nat
  jobName : String
  outcome : Outcome
  detail : String
deriving DecidableEq

/-- The tabular store as the Scheduler sees it: named sheets of rows. -/
def Sheets : Type := List (String × List String)

instance : DecidableEq Sheets := by
  unfold Sheets; infer_instance

/-- Modelled from the spec: the Scheduler-owned state — the shared sheets,
the schedule registry, the run locks and the audit log (§3, §9). -/
structure EngineState where
  sheets : Sheets
  schedules : List ScheduleEntry
  locks : List RunLock
  audit : List AuditRecord
deriving DecidableEq

/-- Remove the lock held for a job name. -/
def releaseLock (locks : List RunLock) (j : String) : List RunLock :=
  locks.filter fun lk => !(lk.jobName == j)

/-- Modelled from the spec: the locked execution path — acquire
`RunLock{acquiredAt=now}`, run the handler synchronously over the sheets,
release the lock in all cases, and append one audit record with the
handler's classified outcome (§4.1). -/
def runJob (handler : Sheets → Sheets × Outcome) (defaultTtl now : Nat)
    (j : String) (s : EngineState) : EngineState :=
  let locksHeld := RunLock.mk j now defaultTtl :: releaseLock s.locks j
  let hr := handler s.sheets
  { s with
    sheets := hr.1
    locks := releaseLock locksHeld j
    audit := s.audit ++ [⟨now, j, hr.2, ""⟩] }

/-- Modelled from the spec: `onFire(jobName)` — unknown jobs are reported
as `UnknownJobError` without running anything; a held lock younger than
its ttl yields `AuditRecord{outcome=SkippedLocked}` without invoking the
handler; a stale lock (age strictly beyond its ttl) is reclaimed and the
handler runs (§4.1). -/
def onFire (handler : Sheets → Sheets × Outcome) (defaultTtl now : Nat)
    (j : String) (s : EngineState) : EngineState :=
  match s.schedules.find? (fun e => e.jobName == j) with
  | none =>
      { s with audit := s.audit ++ [⟨now, j, Outcome.failure, "UnknownJobError"⟩] }
  | some _ =>
      match s.locks.find? (fun lk => lk.jobName == j) with
      | none => runJob handler defaultTtl now j s
      | some lk =>
          if lk.ttl < now - lk.acquiredAt then
            runJob handler defaultTtl now j s
          else
            { s with audit := s.audit ++ [⟨now, j, Outcome.skippedLocked, ""⟩] }

/-! ## Data Validator (§4.4) and restore guard (§4.5) -/

/-- Modelled from the spec: violation severities (§4.4). -/
inductive Severity where
  | error
  | warning
deriving DecidableEq

/-- Modelled from the spec: one integrity violation — sheet, row index,
check name and severity (§4.4). -/
structure Violation where
  sheet : String
  row : Nat
  check : String
  severity : Severity
deriving DecidableEq

/-- Whether a reference resolves to a Team Member (by email). -/
def memberExists (members : List TeamMember) (ref : String) : Bool :=
  members.any fun m => m.email == ref

def validPriority (p : String) : Bool :=
  p == "High" || p == "Medium" || p == "Low"

def validTaskStatus (s : String) : Bool :=
  s == "To Do" || s == "In Progress" || s == "Done"

def validFrequency (f : String) : Bool :=
  f == "One-time" || f == "Daily" || f == "Weekly" || f == "Monthly"

def validDelegationStatus (s : String) : Bool :=
  s == "Pending" || s == "In Progress" || s == "Complete"

def validKpiStatus (s : String) : Bool :=
  s == "Green" || s == "Yellow" || s == "Red"

/-- Modelled from the spec: dangling-reference check — `Task.assignee` or
`Delegation.responsible` not present in TeamMember is an Error (§4.4). -/
def danglingViolations (s : StoreData) : List Violation :=
  ((s.tasks.enum.filter fun p => !(memberExists s.teamMembers p.2.assignee)).map
      fun p => ⟨sheetTasks, p.1, "dangling-reference", Severity.error⟩)
  ++ ((s.delegations.enum.filter fun p => !(memberExists s.teamMembers p.2.responsible)).map
      fun p => ⟨sheetDelegations, p.1, "dangling-reference", Severity.error⟩)

/-- Modelled from the spec: domain check — Priority/Status/Frequency/
KPI-Status outside its enumerated set is an Error (§4.4). -/
def domainViolations (s : StoreData) : List Violation :=
  ((s.tasks.enum.filter fun p =>
      !(validPriority p.2.priority && validTaskStatus p.2.status
          && validFrequency p.2.frequency)).map
      fun p => ⟨sheetTasks, p.1, "domain-violation", Severity.error⟩)
  ++ ((s.delegations.enum.filter fun p => !(validDelegationStatus p.2.status)).map
      fun p => ⟨sheetDelegations, p.1, "domain-violation", Severity.error⟩)
  ++ ((s.kpis.enum.filter fun p => !(validKpiStatus p.2.status)).map
      fun p => ⟨sheetKpis, p.1, "domain-violation", Severity.error⟩)

/-- Modelled from the spec: required-field check — a mandatory field left
empty is an Error (§4.4). -/
def requiredViolations (s : StoreData) : List Violation :=
  ((s.tasks.enum.filter fun p =>
      p.2.id == "" || p.2.name == "" || p.2.assignee == "").map
      fun p => ⟨sheetTasks, p.1, "required-field", Severity.error⟩)
  ++ ((s.delegations.enum.filter fun p =>
      p.2.taskRef == "" || p.2.responsible == "").map
      fun p => ⟨sheetDelegations, p.1, "required-field", Severity.error⟩)
  ++ ((s.teamMembers.enum.filter fun p => p.2.name == "" || p.2.email == "").map
      fun p => ⟨sheetMembers, p.1, "required-field", Severity.error⟩)
  ++ ((s.kpis.enum.filter fun p => p.2.employee == "" || p.2.kpiName == "").map
      fun p => ⟨sheetKpis, p.1, "required-field", Severity.error⟩)

/-- Modelled from the spec: duplicate-identifier check — two Task rows
sharing an `id` is an Error (§4.4). -/
def duplicateIdViolations (s : StoreData) : List Violation :=
  (s.tasks.enum.filter fun p =>
      decide (2 ≤ s.tasks.countP fun t => t.id == p.2.id)).map
    fun p => ⟨sheetTasks, p.1, "duplicate-id", Severity.error⟩

/-- Modelled from the spec: stale-due-date check — `dueDate` in the past
while `status ≠ Done` is a Warning (§4.4). -/
def staleDueViolations (today : Date) (s : StoreData) : List Violation :=
  (s.tasks.enum.filter fun p =>
      decide (Date.lt p.2.dueDate today) && !(p.2.status == "Done")).map
    fun p => ⟨sheetTasks, p.1, "stale-due-date", Severity.warning⟩

/-- Modelled from the spec: orphan-delegation check — a `taskRef` that does
not resolve to an existing Task is a Warning (§4.4). -/
def orphanDelegationViolations (s : StoreData) : List Violation :=
  (s.delegations.enum.filter fun p =>
      !(s.tasks.any fun t => t.id == p.2.taskRef)).map
    fun p => ⟨sheetDelegations, p.1, "orphan-delegation", Severity.warning⟩

/-- Modelled from the spec: the Validator — read-only integrity analysis
producing the violations of all six checks (§4.4). -/
def validate (today : Date) (s : StoreData) : List Violation :=
  danglingViolations s ++ domainViolations s ++ requiredViolations s
    ++ duplicateIdViolations s ++ staleDueViolations today s
    ++ orphanDelegationViolations s

/-- Whether any Error-severity violation touches one of the target
sheets. -/
def hasTargetError (vs : List Violation) (targets : List String) : Bool :=
  vs.any fun v => decide (v.severity = Severity.error) && targets.contains v.sheet

/-- Modelled from the spec: restore failure taxonomy (§7). -/
inductive RestoreError where
  | restoreBlocked
deriving DecidableEq

/-- Modelled from the spec: `restore(snapshotRef, force)` — refuses with
`RestoreBlockedError` when the Validator currently reports an
Error-severity violation on the target sheets and `force` is off;
otherwise overwrites the target sheets from the snapshot's export
(§4.5). -/
def restore (today : Date) (snap : StoreData) (force : Bool)
    (cur : StoreData) : Except RestoreError StoreData :=
  if !force && hasTargetError (validate today cur) allSheets then
    Except.error RestoreError.restoreBlocked
  else
    Except.ok snap

/-! ## Backup Manager retention (§4.5) -/

/-- Modelled from the spec: a snapshot index entry (§3). -/
structure Snapshot where
  timestamp : Nat
  rowCount : Nat
  storageRef : String
  integrityVerified : Bool
deriving DecidableEq

/-- Index of the most recent snapshot with `integrityVerified = true` in a
snapshot list ordered oldest first. -/
def lastVerifiedIdx : List Snapshot → Option Nat
  | [] => none
  | s :: rest =>
      match lastVerifiedIdx rest with
      | some i => some (i + 1)
      | none => if s.integrityVerified then some 0 else none

/-- Modelled from the spec: retention cleanup — with the snapshot index
ordered oldest first, delete the oldest snapshots beyond the configured
maximum count `n`, oldest first, but never delete the most recent verified
snapshot even if `n = 0` (§4.5). -/
def applyRetention (n : Nat) (snaps : List Snapshot) : List Snapshot :=
  match lastVerifiedIdx snaps with
  | none => snaps.drop (snaps.length - n)
  | some i =>
      if i < snaps.length - n then
        (snaps.drop i).take 1 ++ snaps.drop (snaps.length - n)
      else snaps.drop (snaps.length - n)

/-- Modelled from the spec: one successful snapshot followed by retention
cleanup (§4.5). -/
def snapshotAndRetain (n : Nat) (snaps : List Snapshot) (snap : Snapshot) :
    List Snapshot :=
  applyRetention n (snaps ++ [snap])

/-! ## Notification Dispatcher (§4.3) -/

/-- Modelled from the spec: one groupable notification item (an overdue
reminder or daily-summary line) addressed to a recipient email (§4.3). -/
structure NotifItem where
  recipient : String
  subject : String
  body : String
deriving DecidableEq

/-- Modelled from the spec: one rendered message to one recipient carrying
all of that recipient's items (§4.3). -/
structure GroupedMessage where
  recipient : String
  items : List NotifItem
deriving DecidableEq

/-- The distinct recipient emails of a batch, in first-seen order. -/
def recipientsOf (items : List NotifItem) : List String :=
  (items.map fun i => i.recipient).dedup

/-- Modelled from the spec: the grouping rule — bucket items by recipient
email, then render exactly one message per recipient containing all of
that recipient's items (§4.3). -/
def dispatchGrouped (items : List NotifItem) : List GroupedMessage :=
  (recipientsOf items).map fun r =>
    ⟨r, items.filter fun i => i.recipient == r⟩

/-- Modelled from the spec: the six notification classes (§4.3). -/
inductive NotifClass where
  | taskAssignment
  | dailySummary
  | overdueReminder
  | kpiAlert
  | weeklyReport
  | errorNotification
deriving DecidableEq

/-- Modelled from the spec: one outbound message handed to the email
gateway (§6). -/
structure OutMessage where
  recipient : String
  subject : String
  htmlBody : String
  textBody : String
deriving DecidableEq

/-- Modelled from the spec: per-recipient delivery results of one batch
(§4.3). -/
structure DeliveryReport where
  results : List (String × Bool)
deriving DecidableEq

/-- Modelled from the spec: best-effort independent delivery — every
message of the batch is attempted and its per-recipient result recorded
(§4.3).  The transport's success or failure per message is the `attempt`
oracle. -/
def sendAll (attempt : OutMessage → Bool) (msgs : List OutMessage) :
    DeliveryReport :=
  ⟨msgs.map fun m => (m.recipient, attempt m)⟩

/-- Failed deliveries in a report. -/
def failureCount (r : DeliveryReport) : Nat :=
  r.results.countP fun p => p.2 == false

/-- Modelled from the spec: the configurable batch failure-rate threshold,
default 50% (§4.3). -/
def defaultFailureThreshold : Nat := 50

/-- Whether a batch's failure rate strictly exceeds `threshold` percent. -/
def thresholdExceeded (threshold : Nat) (r : DeliveryReport) : Bool :=
  decide (threshold * r.results.length < failureCount r * 100)

/-- Modelled from the spec: number of administrator `ErrorNotification`
escalations raised for one batch — one iff the failure rate exceeds the
threshold, never one per individual failure, and never for an
`ErrorNotification` batch itself (§4.3). -/
def escalationCount (threshold : Nat) (cls : NotifClass)
    (r : DeliveryReport) : Nat :=
  if cls = NotifClass.errorNotification then 0
  else if thresholdExceeded threshold r then 1 else 0

/-- Modelled from the spec: delivery of one batch — attempt every message,
record the per-recipient report, and raise at most one administrator
escalation (§4.3). -/
def dispatchBatch (threshold : Nat) (cls : NotifClass)
    (attempt : OutMessage → Bool) (msgs : List OutMessage) :
    DeliveryReport × Nat :=
  let r := sendAll attempt msgs
  (r, escalationCount threshold cls r)

/-! ## Dashboard (`src/App.jsx`) -/

/-- A task row as the dashboard receives it from the API; field names
follow the sheet headers used in `App.jsx` (`t.Status`, due date and the
rest of the row do not influence the chart's Overdue entry). -/
structure FrontTask where
  taskId : String
  taskName : String
  assignedTo : String
  dueDateText : String
  taskStatus : String
deriving DecidableEq

/-- One slice of the task-status pie chart in `App.jsx`. -/
structure ChartEntry where
  name : String
  value : Nat
  color : String
deriving DecidableEq

/-- The `taskStatusData` array of `src/App.jsx` (lines 613–619): counts of
the three statuses, and an `Overdue` slice whose value is the literal 0. -/
def taskStatusData (tasks : List FrontTask) : List ChartEntry :=
  [⟨"To Do", (tasks.filter fun t => t.taskStatus == "To Do").length, "#8b5cf6"⟩,
   ⟨"In Progress", (tasks.filter fun t => t.taskStatus == "In Progress").length, "#10b981"⟩,
   ⟨"Done", (tasks.filter fun t => t.taskStatus == "Done").length, "#f59e0b"⟩,
   ⟨"Overdue", 0, "#ef4444"⟩]

/-- The value rendered by the `Overdue Tasks` metric card of the dashboard
in `src/App.jsx` (line 796): the literal 0, independent of the fetched
tasks. -/
def overdueTasksCardValue : Nat := 0

/-- The authentication slice of the `App` component state:
`user`/`isAuthenticated` from `src/App.jsx`. -/
structure AuthState where
  user : Option String
  isAuthenticated : Bool
deriving DecidableEq

/-- `handleLogout` of `src/App.jsx` (lines 1197–1209): the logout API call
may succeed or throw (`logoutApi`); the `catch` only logs, and the
`finally` block clears `user` and `isAuthenticated` unconditionally. -/
def handleLogout (logoutApi : Except String Unit) (st : AuthState) :
    AuthState :=
  let afterTry : AuthState :=
    match logoutApi with
    | Except.ok _ => st
    | Except.error _ => st
  { afterTry with user := none, isAuthenticated := false }

/-- The signup-mode form data of the `Auth` component in `src/App.jsx`. -/
structure SignupForm where
  email : String
  password : String
  confirmPassword : String
  firstName : String
  lastName : String
  company : String
deriving DecidableEq

/-- The response shape of `authAPI.signup` in `src/App.jsx`. -/
structure SignupResponse where
  success : Bool
  message : Option String
  user : String
deriving DecidableEq

/-- The observable outcome of one `handleSubmit` run in signup mode in
`src/App.jsx`: the `error` state, the `loading` state, whether
`authAPI.signup` was invoked, and whether `onLogin` fired. -/
structure AuthSubmitResult where
  error : String
  loading : Bool
  signupApiCalled : Bool
  loggedIn : Bool
deriving DecidableEq

/-- `handleSubmit` of `src/App.jsx` in signup mode (lines 179–211): clears
the error, guards on `password ≠ confirmPassword` — setting the error
message `Passwords do not match` and returning before any API call —
and otherwise calls `authAPI.signup` and reacts to its response. -/
def handleSubmitSignup (api : SignupForm → SignupResponse)
    (fd : SignupForm) : AuthSubmitResult :=
  if !(fd.password == fd.confirmPassword) then
    { error := "Passwords do not match", loading := false
      signupApiCalled := false, loggedIn := false }
  else
    let resp := api fd
    if resp.success then
      { error := "", loading := false, signupApiCalled := true, loggedIn := true }
    else
      { error := resp.message.getD "Signup failed", loading := false
        signupApiCalled := true, loggedIn := false }

/-! ## Sample data used to instantiate the theorems -/

/-- A concrete daily recurring template, completed on its due date. -/
def sampleTemplate : Task :=
  { id := "T1", name := "Standup notes", assignee := "alice@x.com"
    dueDate := ⟨2025, 3, 10⟩, priority := "High", status := "Done"
    frequency := "Daily", completedAt := some ⟨2025, 3, 10⟩
    category := none, suggestedDeadline := none, templateId := none }

/-- A concrete monthly recurring template last completed on Jan 31. -/
def monthlyTemplate : Task :=
  { id := "T7", name := "Monthly report", assignee := "bob@x.com"
    dueDate := ⟨2025, 1, 5⟩, priority := "Medium", status := "Done"
    frequency := "Monthly", completedAt := some ⟨2025, 1, 31⟩
    category := none, suggestedDeadline := none, templateId := none }

/-- A concrete engine state with one registered job holding a fresh
lock. -/
def sampleEngineState : EngineState :=
  { sheets := [(sheetTasks, ["row1", "row2"])]
    schedules := [⟨"hourlyAutomation", Cadence.hourly, none, none⟩]
    locks := [⟨"hourlyAutomation", 100, 3600⟩]
    audit := [] }

/-- A store whose only task has a dangling assignee reference. -/
def ghostStore : StoreData :=
  { tasks := [{ id := "T9", name := "Haunt", assignee := "ghost@x.com"
                dueDate := ⟨2025, 6, 1⟩, priority := "Low", status := "To Do"
                frequency := "One-time", completedAt := none
                category := none, suggestedDeadline := none, templateId := none }]
    delegations := [], teamMembers := [], kpis := [] }

/-- A clean snapshot of an empty store. -/
def cleanSnapshotData : StoreData :=
  { tasks := [], delegations := [], teamMembers := [], kpis := [] }

/-- Two concrete verified snapshots. -/
def snapA : Snapshot := ⟨10, 4, "snap-a", true⟩

def snapB : Snapshot := ⟨20, 5, "snap-b", true⟩

/-- Three overdue-reminder items addressed to the same person. -/
def threeOverdueItems : List NotifItem :=
  [⟨"p@x.com", "Overdue", "task A"⟩, ⟨"p@x.com", "Overdue", "task B"⟩,
   ⟨"p@x.com", "Overdue", "task C"⟩]

/-- Two concrete outbound messages. -/
def twoMessages : List OutMessage :=
  [⟨"p@x.com", "s1", "h1", "t1"⟩, ⟨"q@x.com", "s2", "h2", "t2"⟩]

/-- A concrete signup form whose two password fields differ. -/
def mismatchedForm : SignupForm :=
  { email := "a@x.com", password := "secret1", confirmPassword := "secret2"
    firstName := "A", lastName := "B", company := "C" }

/-! ## Calendar lemmas -/

theorem daysInMonth_ge (y m : Nat) : 28 ≤ daysInMonth y m := by
  unfold daysInMonth
  split_ifs <;> omega

theorem nextDay_valid {d : Date} (h : d.Valid) : (nextDay d).Valid := by
  have h28a := daysInMonth_ge d.year (d.month + 1)
  have h28b := daysInMonth_ge (d.year + 1) 1
  obtain ⟨hm1, hm2, hd1, hd2⟩ := h
  unfold nextDay
  split_ifs with h1 h2
  · exact ⟨hm1, hm2, Nat.succ_le_succ (Nat.zero_le _), h1⟩
  · exact ⟨Nat.succ_le_succ (Nat.zero_le _), h2, Nat.le_refl 1,
      Nat.le_trans (show (1:Nat) ≤ 28 by decide) h28a⟩
  · exact ⟨Nat.le_refl 1, show (1:Nat) ≤ 12 by decide, Nat.le_refl 1,
      Nat.le_trans (show (1:Nat) ≤ 28 by decide) h28b⟩

theorem nextDay_lt (d : Date) : Date.lt d (nextDay d) := by
  unfold nextDay
  split_ifs with h1 h2
  · exact Or.inr ⟨rfl, Or.inr ⟨rfl, Nat.lt_succ_self d.day⟩⟩
  · exact Or.inr ⟨rfl, Or.inl (Nat.lt_succ_self d.month)⟩
  · exact Or.inl (Nat.lt_succ_self d.year)

theorem dateLt_trans {a b c : Date} (hab : Date.lt a b) (hbc : Date.lt b c) :
    Date.lt a c := by
  simp only [Date.lt] at hab hbc ⊢
  omega

theorem addDays_valid : ∀ (n : Nat) (d : Date), d.Valid → (addDays d n).Valid
  | 0, _, h => h
  | n + 1, d, h => addDays_valid n (nextDay d) (nextDay_valid h)

theorem addDays_lt : ∀ (n : Nat) (d : Date), Date.lt d (addDays d (n + 1))
  | 0, d => nextDay_lt d
  | n + 1, d => dateLt_trans (nextDay_lt d) (addDays_lt n (nextDay d))

theorem addMonthClamped_valid {d : Date} (h : d.Valid) :
    (addMonthClamped d).Valid := by
  have h28a := daysInMonth_ge d.year (d.month + 1)
  have h28b := daysInMonth_ge (d.year + 1) 1
  obtain ⟨hm1, hm2, hd1, hd2⟩ := h
  unfold addMonthClamped
  split_ifs with h1
  · exact ⟨Nat.succ_le_succ (Nat.zero_le _), h1,
      Nat.le_min.mpr ⟨hd1, Nat.le_trans (show (1:Nat) ≤ 28 by decide) h28a⟩,
      Nat.min_le_right _ _⟩
  · exact ⟨Nat.le_refl 1, show (1:Nat) ≤ 12 by decide,
      Nat.le_min.mpr ⟨hd1, Nat.le_trans (show (1:Nat) ≤ 28 by decide) h28b⟩,
      Nat.min_le_right _ _⟩

theorem addMonthClamped_lt (d : Date) : Date.lt d (addMonthClamped d) := by
  unfold addMonthClamped
  split_ifs with h1
  · exact Or.inr ⟨rfl, Or.inl (Nat.lt_succ_self d.month)⟩
  · exact Or.inl (Nat.lt_succ_self d.year)

/-- Claim C3: for every recurring template, the Generator computes
`targetDate` as the next occurrence strictly after
`max(completedAt, dueDate)` — `+1` day for Daily, `+7` days for Weekly,
`+1` calendar month clamped to the last valid day of a shorter month for
Monthly; in particular a Monthly template last completed on Jan 31 yields
Feb 28 (Feb 29 in a leap year) and never Mar 3. -/
theorem target_date_next_occurrence (tpl : Task) (d : Date)
    (hfreq : tpl.frequency = "Daily" ∨ tpl.frequency = "Weekly" ∨
      tpl.frequency = "Monthly")
    (hbase : (baseDate tpl).Valid) :
    ((targetDate tpl).Valid ∧ Date.lt (baseDate tpl) (targetDate tpl))
    ∧ nextOccurrence "Daily" d = addDays d 1
    ∧ nextOccurrence "Weekly" d = addDays d 7
    ∧ nextOccurrence "Monthly" ⟨2025, 1, 31⟩ = ⟨2025, 2, 28⟩
    ∧ nextOccurrence "Monthly" ⟨2024, 1, 31⟩ = ⟨2024, 2, 29⟩
    ∧ nextOccurrence "Monthly" ⟨2025, 1, 31⟩ ≠ ⟨2025, 3, 3⟩
    ∧ targetDate monthlyTemplate = ⟨2025, 2, 28⟩ := by
  refine ⟨?_, by simp [nextOccurrence], by simp [nextOccurrence],
    by decide, by decide, by decide, by decide⟩
  unfold targetDate nextOccurrence
  rcases hfreq with h | h | h <;> rw [h]
  · rw [if_pos rfl]
    exact ⟨addDays_valid 1 _ hbase, addDays_lt 0 _⟩
  · rw [if_neg (by decide), if_pos rfl]
    exact ⟨addDays_valid 7 _ hbase, addDays_lt 6 _⟩
  · rw [if_neg (by decide), if_neg (by decide), if_pos rfl]
    exact ⟨addMonthClamped_valid hbase, addMonthClamped_lt _⟩

/-- Witness for C3 at the concrete monthly template completed on
Jan 31, 2025. -/
theorem target_date_next_occurrence_witness :
    ((targetDate monthlyTemplate).Valid
      ∧ Date.lt (baseDate monthlyTemplate) (targetDate monthlyTemplate))
    ∧ nextOccurrence "Daily" ⟨2025, 3, 10⟩ = addDays ⟨2025, 3, 10⟩ 1
    ∧ nextOccurrence "Weekly" ⟨2025, 3, 10⟩ = addDays ⟨2025, 3, 10⟩ 7
    ∧ nextOccurrence "Monthly" ⟨2025, 1, 31⟩ = ⟨2025, 2, 28⟩
    ∧ nextOccurrence "Monthly" ⟨2024, 1, 31⟩ = ⟨2024, 2, 29⟩
    ∧ nextOccurrence "Monthly" ⟨2025, 1, 31⟩ ≠ ⟨2025, 3, 3⟩
    ∧ targetDate monthlyTemplate = ⟨2025, 2, 28⟩ :=
  target_date_next_occurrence monthlyTemplate ⟨2025, 3, 10⟩
    (by decide) (by decide)

/-! ## Generator lemmas -/

theorem genStep_of_hasKey {st : GenState} {tpl : Task}
    (hr : isRecurring tpl = true) (hv : validTemplate tpl = true)
    (hk : hasKey st.store tpl.id (targetDate tpl) = true) :
    genStep st tpl = st := by
  unfold genStep
  rw [hr, hv, hk]
  simp

theorem runGenerator_of_allKeys : ∀ (l : List Task) (st : GenState),
    (∀ tpl ∈ l, isRecurring tpl = true ∧ validTemplate tpl = true ∧
      hasKey st.store tpl.id (targetDate tpl) = true) →
    runGenerator l st = st
  | [], _, _ => rfl
  | tpl :: l, st, h => by
      have h0 := h tpl (List.mem_cons_self tpl l)
      have hstep : genStep st tpl = st := genStep_of_hasKey h0.1 h0.2.1 h0.2.2
      show runGenerator l (genStep st tpl) = st
      rw [hstep]
      exact runGenerator_of_allKeys l st fun t ht => h t (List.mem_cons_of_mem _ ht)

theorem hasKey_genStep {st : GenState} {tpl : Task} {tid : String} {d : Date}
    (h : hasKey st.store tid d = true) :
    hasKey (genStep st tpl).store tid d = true := by
  unfold genStep
  split_ifs <;> simp_all [hasKey, List.any_cons]

theorem hasKey_runGenerator : ∀ (l : List Task) (st : GenState)
    (tid : String) (d : Date), hasKey st.store tid d = true →
    hasKey (runGenerator l st).store tid d = true
  | [], _, _, _, h => h
  | tpl :: l, st, tid, d, h =>
      hasKey_runGenerator l (genStep st tpl) tid d (hasKey_genStep h)

theorem hasKey_genStep_self {st : GenState} {tpl : Task}
    (hr : isRecurring tpl = true) (hv : validTemplate tpl = true) :
    hasKey (genStep st tpl).store tpl.id (targetDate tpl) = true := by
  by_cases hk : hasKey st.store tpl.id (targetDate tpl) = true
  · rw [genStep_of_hasKey hr hv hk]
    exact hk
  · unfold genStep
    rw [hr, hv]
    rw [Bool.not_eq_true] at hk
    rw [hk]
    simp [hasKey, List.any_cons, instantiate]

theorem hasKey_after_run : ∀ (l : List Task) (st : GenState) (tpl : Task),
    tpl ∈ l → isRecurring tpl = true → validTemplate tpl = true →
    hasKey (runGenerator l st).store tpl.id (targetDate tpl) = true
  | t :: l, st, tpl, hmem, hr, hv => by
      rcases List.mem_cons.mp hmem with heq | hmem2
      · subst heq
        exact hasKey_runGenerator l (genStep st tpl) _ _
          (hasKey_genStep_self hr hv)
      · exact hasKey_after_run l (genStep st t) tpl hmem2 hr hv

theorem countKey_genStep_ne {st : GenState} {tpl : Task} {tid : String}
    {d : Date} (hne : tpl.id ≠ tid) :
    countKey (genStep st tpl).store tid d = countKey st.store tid d := by
  unfold genStep
  split_ifs <;>
    simp [countKey, List.countP_cons, instantiate, Option.some.injEq, hne]

theorem countKey_runGenerator_ne : ∀ (l : List Task) (st : GenState)
    (tid : String) (d : Date), (∀ t ∈ l, t.id ≠ tid) →
    countKey (runGenerator l st).store tid d = countKey st.store tid d
  | [], _, _, _, _ => rfl
  | t :: l, st, tid, d, h => by
      show countKey (runGenerator l (genStep st t)).store tid d = _
      rw [countKey_runGenerator_ne l (genStep st t) tid d
        (fun x hx => h x (List.mem_cons_of_mem _ hx))]
      exact countKey_genStep_ne (h t (List.mem_cons_self t l))

theorem hasKey_eq_false_of_countKey_eq_zero {store : List Task}
    {tid : String} {d : Date} (h : countKey store tid d = 0) :
    hasKey store tid d = false := by
  rw [countKey, List.countP_eq_zero] at h
  rw [hasKey]
  simp only [List.any_eq_false]
  intro t ht
  exact h t ht

/-- Claim C1: recurring task generation is idempotent — for every
well-formed recurring template set with distinct ids and a fresh target
window, one Generator run creates exactly one Task per idempotence key
`(templateId, targetDate)`, and a second run for the same window is a
no-op whose report shows zero created and zero errors. -/
theorem recurring_generation_idempotent
    (templates store0 : List Task) (n0 : Nat) (tpl : Task)
    (hrec : ∀ t ∈ templates, isRecurring t = true)
    (hval : ∀ t ∈ templates, validTemplate t = true)
    (hids : (templates.map Task.id).Nodup)
    (hfresh : ∀ t ∈ templates, countKey store0 t.id (targetDate t) = 0)
    (hmem : tpl ∈ templates) :
    countKey (runGenerator templates ⟨store0, n0, 0, 0⟩).store tpl.id
        (targetDate tpl) = 1
    ∧ runGenerator templates
        ⟨(runGenerator templates ⟨store0, n0, 0, 0⟩).store,
          (runGenerator templates ⟨store0, n0, 0, 0⟩).nextId, 0, 0⟩
      = ⟨(runGenerator templates ⟨store0, n0, 0, 0⟩).store,
          (runGenerator templates ⟨store0, n0, 0, 0⟩).nextId, 0, 0⟩ := by
  constructor
  · obtain ⟨l1, l2, rfl⟩ := List.append_of_mem hmem
    have hids2 : (l1.map Task.id ++ tpl.id :: l2.map Task.id).Nodup := by
      simpa [List.map_append] using hids
    obtain ⟨hn1, hn2, hdisj⟩ := List.nodup_append.mp hids2
    have hne1 : ∀ t ∈ l1, t.id ≠ tpl.id := by
      intro t ht heq
      exact hdisj (List.mem_map_of_mem Task.id ht)
        (heq ▸ List.mem_cons_self _ _)
    have hne2 : ∀ t ∈ l2, t.id ≠ tpl.id := by
      intro t ht heq
      exact (List.nodup_cons.mp hn2).1
        (heq ▸ List.mem_map_of_mem Task.id ht)
    have hrun : runGenerator (l1 ++ tpl :: l2) ⟨store0, n0, 0, 0⟩
        = runGenerator l2
            (genStep (runGenerator l1 ⟨store0, n0, 0, 0⟩) tpl) := by
      simp [runGenerator, List.foldl_append]
    have e1 : countKey (runGenerator l1 ⟨store0, n0, 0, 0⟩).store tpl.id
        (targetDate tpl) = 0 := by
      rw [countKey_runGenerator_ne l1 ⟨store0, n0, 0, 0⟩ _ _ hne1]
      exact hfresh tpl hmem
    have hk : hasKey (runGenerator l1 ⟨store0, n0, 0, 0⟩).store tpl.id
        (targetDate tpl) = false :=
      hasKey_eq_false_of_countKey_eq_zero e1
    have hr := hrec tpl hmem
    have hv := hval tpl hmem
    have hstep : (genStep (runGenerator l1 ⟨store0, n0, 0, 0⟩) tpl).store
        = instantiate tpl (targetDate tpl)
            (runGenerator l1 ⟨store0, n0, 0, 0⟩).nextId
          :: (runGenerator l1 ⟨store0, n0, 0, 0⟩).store := by
      unfold genStep
      rw [hr, hv, hk]
      simp
    have e2 : countKey
        (genStep (runGenerator l1 ⟨store0, n0, 0, 0⟩) tpl).store tpl.id
        (targetDate tpl) = 1 := by
      rw [countKey] at e1 ⊢
      rw [hstep, List.countP_cons, e1]
      simp [instantiate]
    rw [hrun, countKey_runGenerator_ne l2 _ _ _ hne2, e2]
  · apply runGenerator_of_allKeys
    intro t ht
    exact ⟨hrec t ht, hval t ht,
      hasKey_after_run templates ⟨store0, n0, 0, 0⟩ t ht
        (hrec t ht) (hval t ht)⟩

/-- Witness for C1 at a concrete one-template store. -/
theorem recurring_generation_idempotent_witness :
    countKey (runGenerator [sampleTemplate] ⟨[], 0, 0, 0⟩).store
        sampleTemplate.id (targetDate sampleTemplate) = 1
    ∧ runGenerator [sampleTemplate]
        ⟨(runGenerator [sampleTemplate] ⟨[], 0, 0, 0⟩).store,
          (runGenerator [sampleTemplate] ⟨[], 0, 0, 0⟩).nextId, 0, 0⟩
      = ⟨(runGenerator [sampleTemplate] ⟨[], 0, 0, 0⟩).store,
          (runGenerator [sampleTemplate] ⟨[], 0, 0, 0⟩).nextId, 0, 0⟩ :=
  recurring_generation_idempotent [sampleTemplate] [] 0 sampleTemplate
    (by decide) (by decide) (by decide) (by decide) (by decide)

/-! ## Scheduler lock discipline -/

/-- Claim C2: firing a job while a `RunLock` for it is held with age less
than its ttl records one `SkippedLocked` audit record, does not invoke the
handler (the result is the same for every handler), and leaves every sheet
of the tabular store — and the lock table — unchanged. -/
theorem second_fire_skipped_locked
    (handler : Sheets → Sheets × Outcome) (defaultTtl now : Nat)
    (j : String) (s : EngineState) (e : ScheduleEntry) (lk : RunLock)
    (hs : s.schedules.find? (fun x => x.jobName == j) = some e)
    (hl : s.locks.find? (fun x => x.jobName == j) = some lk)
    (hage : now - lk.acquiredAt < lk.ttl) :
    onFire handler defaultTtl now j s
      = { s with audit := s.audit ++ [⟨now, j, Outcome.skippedLocked, ""⟩] }
    ∧ (onFire handler defaultTtl now j s).sheets = s.sheets
    ∧ (onFire handler defaultTtl now j s).locks = s.locks := by
  have hmain : onFire handler defaultTtl now j s
      = { s with audit := s.audit ++ [⟨now, j, Outcome.skippedLocked, ""⟩] } := by
    unfold onFire
    rw [hs, hl]
    simp only
    rw [if_neg (by omega)]
  exact ⟨hmain, by rw [hmain], by rw [hmain]⟩

/-- Witness for C2 at a concrete engine state holding a fresh lock. -/
theorem second_fire_skipped_locked_witness :
    onFire (fun sh => (sh, Outcome.success)) 3600 200 "hourlyAutomation"
        sampleEngineState
      = { sampleEngineState with
          audit := sampleEngineState.audit
            ++ [⟨200, "hourlyAutomation", Outcome.skippedLocked, ""⟩] }
    ∧ (onFire (fun sh => (sh, Outcome.success)) 3600 200 "hourlyAutomation"
        sampleEngineState).sheets = sampleEngineState.sheets
    ∧ (onFire (fun sh => (sh, Outcome.success)) 3600 200 "hourlyAutomation"
        sampleEngineState).locks = sampleEngineState.locks :=
  second_fire_skipped_locked (fun sh => (sh, Outcome.success)) 3600 200
    "hourlyAutomation" sampleEngineState
    ⟨"hourlyAutomation", Cadence.hourly, none, none⟩
    ⟨"hourlyAutomation", 100, 3600⟩ (by decide) (by decide) (by decide)

/-! ## Restore guard -/

/-- Claim C4: `restore(snapshotRef, force=false)` fails with
`RestoreBlockedError` — writing nothing — whenever the Validator currently
reports an Error-severity violation on the target sheets, while
`restore(snapshotRef, force=true)` proceeds and overwrites the target
sheets from the snapshot. -/
theorem restore_guard (today : Date) (snap cur : StoreData)
    (hv : hasTargetError (validate today cur) allSheets = true) :
    restore today snap false cur = Except.error RestoreError.restoreBlocked
    ∧ restore today snap true cur = Except.ok snap := by
  constructor
  · simp [restore, hv]
  · simp [restore]

/-- Witness for C4 at a store with a dangling assignee reference. -/
theorem restore_guard_witness :
    hasTargetError (validate ⟨2025, 1, 1⟩ ghostStore) allSheets = true
    ∧ restore ⟨2025, 1, 1⟩ cleanSnapshotData false ghostStore
        = Except.error RestoreError.restoreBlocked
    ∧ restore ⟨2025, 1, 1⟩ cleanSnapshotData true ghostStore
        = Except.ok cleanSnapshotData :=
  ⟨by decide,
    restore_guard ⟨2025, 1, 1⟩ cleanSnapshotData ghostStore (by decide)⟩

/-! ## Backup retention lemmas -/

theorem applyRetention_of_le {n : Nat} {snaps : List Snapshot}
    (h : snaps.length ≤ n) : applyRetention n snaps = snaps := by
  have h0 : snaps.length - n = 0 := by omega
  rcases hlv : lastVerifiedIdx snaps with _ | i <;>
    simp [applyRetention, hlv, h0]

theorem lastVerifiedIdx_all : ∀ (snaps : List Snapshot), snaps ≠ [] →
    (∀ s ∈ snaps, s.integrityVerified = true) →
    lastVerifiedIdx snaps = some (snaps.length - 1)
  | [s], _, hv => by
      have hs := hv s (List.mem_cons_self s [])
      simp [lastVerifiedIdx, hs]
  | s :: t :: rest, _, hv => by
      have ih := lastVerifiedIdx_all (t :: rest) (List.cons_ne_nil t rest)
        fun x hx => hv x (List.mem_cons_of_mem _ hx)
      show (match lastVerifiedIdx (t :: rest) with
        | some i => some (i + 1)
        | none => if s.integrityVerified then some 0 else none)
        = some ((s :: t :: rest).length - 1)
      rw [ih]
      simp only [Option.some.injEq, List.length_cons]
      omega

theorem foldl_retain_small (n : Nat) : ∀ (l acc : List Snapshot),
    acc.length + l.length ≤ n →
    List.foldl (snapshotAndRetain n) acc l = acc ++ l
  | [], acc, _ => by simp
  | a :: l, acc, h => by
      simp only [List.length_cons] at h
      have hstep : snapshotAndRetain n acc a = acc ++ [a] := by
        show applyRetention n (acc ++ [a]) = acc ++ [a]
        refine applyRetention_of_le ?_
        simp only [List.length_append, List.length_cons, List.length_nil]
        omega
      show List.foldl (snapshotAndRetain n) (snapshotAndRetain n acc a) l
        = acc ++ a :: l
      rw [hstep, foldl_retain_small n l (acc ++ [a]) (by
        simp only [List.length_append, List.length_cons, List.length_nil]
        omega)]
      simp

theorem applyRetention_drop_one {n : Nat} {L : List Snapshot}
    (hn : 1 ≤ n) (hlen : L.length = n + 1)
    (hver : ∀ s ∈ L, s.integrityVerified = true) :
    applyRetention n L = L.drop 1 := by
  have hne : L ≠ [] := by
    intro h
    rw [h] at hlen
    simp at hlen
  have hlv := lastVerifiedIdx_all L hne hver
  have hidx : L.length - 1 = n := by omega
  have hcut : L.length - n = 1 := by omega
  simp only [applyRetention, hlv, hidx, hcut]
  rw [if_neg (by omega)]

/-- Claim C5 (amended): with retention limit `N ≥ 1`, after `N+1`
successful (verified) snapshots exactly `N` remain and the deleted one is
the oldest; and for every limit — including `N = 0` — the most recent
verified snapshot survives retention, so at `N = 0` one snapshot remains
rather than zero. -/
theorem backup_retention_amended
    (n : Nat) (older : List Snapshot) (latest : Snapshot)
    (m i : Nat) (snaps : List Snapshot) (sv : Snapshot)
    (hn : 1 ≤ n) (hlen : older.length = n)
    (hver : ∀ s ∈ older ++ [latest], s.integrityVerified = true)
    (hlv : lastVerifiedIdx snaps = some i)
    (hhd : (snaps.drop i).head? = some sv) :
    (List.foldl (snapshotAndRetain n) [] (older ++ [latest])
        = (older ++ [latest]).drop 1
      ∧ (List.foldl (snapshotAndRetain n) [] (older ++ [latest])).length = n)
    ∧ sv ∈ applyRetention m snaps := by
  have hfold : List.foldl (snapshotAndRetain n) [] (older ++ [latest])
      = applyRetention n (older ++ [latest]) := by
    rw [List.foldl_append,
      foldl_retain_small n older [] (by simp [hlen])]
    simp only [List.nil_append]
    rfl
  have hLlen : (older ++ [latest]).length = n + 1 := by simp [hlen]
  have hdrop := applyRetention_drop_one hn hLlen hver
  refine ⟨⟨by rw [hfold, hdrop], ?_⟩, ?_⟩
  · rw [hfold, hdrop, List.length_drop, hLlen]
    omega
  · simp only [applyRetention, hlv]
    by_cases hc : i < snaps.length - m
    · rw [if_pos hc]
      cases hd : snaps.drop i with
      | nil =>
          rw [hd] at hhd
          simp at hhd
      | cons a t =>
          have ha : a = sv := by
            rw [hd] at hhd
            simpa using hhd
          subst ha
          simp
    · rw [if_neg hc]
      have hsv : sv ∈ snaps.drop i :=
        List.mem_of_mem_head? (Option.mem_def.mpr hhd)
      have hdd : (snaps.drop (snaps.length - m)).drop (i - (snaps.length - m))
          = snaps.drop i := by
        rw [List.drop_drop]
        congr 1
        omega
      rw [← hdd] at hsv
      exact List.drop_subset _ _ hsv

/-- Witness for C5 at limit 1 with two verified snapshots. -/
theorem backup_retention_amended_witness :
    (List.foldl (snapshotAndRetain 1) [] ([snapA] ++ [snapB])
        = ([snapA] ++ [snapB]).drop 1
      ∧ (List.foldl (snapshotAndRetain 1) [] ([snapA] ++ [snapB])).length = 1)
    ∧ snapA ∈ applyRetention 0 [snapA] :=
  backup_retention_amended 1 [snapA] snapB 0 0 [snapA] snapA
    (by decide) (by decide) (by decide) (by decide) (by decide)

/-- Counterexample for C5 as stated: with retention limit 0, after one
successful snapshot the most-recent-verified exception keeps one snapshot,
so the count is not the limit 0 the claim demands for every `N`. -/
theorem backup_retention_zero_counterexample :
    (List.foldl (snapshotAndRetain 0) [] [snapA]).length ≠ 0 := by
  decide

/-! ## Dispatcher grouping -/

/-- Claim C6: for every batch of groupable notification items the
Dispatcher sends exactly one message per distinct recipient email
containing all of that recipient's items; in particular three overdue
items addressed to the same person produce exactly one message holding all
three, and no message holds exactly one item. -/
theorem grouped_notification (items : List NotifItem)
    (msg : GroupedMessage) (hm : msg ∈ dispatchGrouped items)
    (it : NotifItem) (hi : it ∈ items) :
    ((dispatchGrouped items).map GroupedMessage.recipient).Nodup
    ∧ (dispatchGrouped items).length = (recipientsOf items).length
    ∧ msg.items = items.filter (fun x => x.recipient == msg.recipient)
    ∧ ((dispatchGrouped items).filter
        (fun g => g.recipient == it.recipient)).length = 1
    ∧ dispatchGrouped threeOverdueItems
        = [⟨"p@x.com", threeOverdueItems⟩]
    ∧ ((dispatchGrouped threeOverdueItems).filter
        (fun g => g.items.length == 1)).length = 0 := by
  have hmapeq : (dispatchGrouped items).map GroupedMessage.recipient
      = recipientsOf items := by
    rw [dispatchGrouped, List.map_map]
    have hid : (GroupedMessage.recipient ∘ fun r =>
        (⟨r, items.filter fun i => i.recipient == r⟩ : GroupedMessage))
        = id := rfl
    rw [hid, List.map_id]
  refine ⟨?_, ?_, ?_, ?_, by decide, by decide⟩
  · rw [hmapeq]
    exact List.nodup_dedup _
  · simp [dispatchGrouped]
  · obtain ⟨r, hr, rfl⟩ := List.mem_map.mp hm
    rfl
  · have hmem : it.recipient ∈ recipientsOf items := by
      rw [recipientsOf, List.mem_dedup]
      exact List.mem_map_of_mem _ hi
    have hfm : ((dispatchGrouped items).filter
          (fun g => g.recipient == it.recipient))
        = (((recipientsOf items).filter (fun r => r == it.recipient)).map
            fun r => (⟨r, items.filter fun i => i.recipient == r⟩ :
              GroupedMessage)) := by
      rw [dispatchGrouped, List.filter_map]
      rfl
    rw [hfm, List.length_map, ← List.countP_eq_length_filter]
    have : (recipientsOf items).count it.recipient = 1 :=
      List.count_eq_one_of_mem (List.nodup_dedup _) hmem
    simpa [List.count] using this

/-- Witness for C6 at the three same-recipient overdue items. -/
theorem grouped_notification_witness :
    ((dispatchGrouped threeOverdueItems).map GroupedMessage.recipient).Nodup
    ∧ (dispatchGrouped threeOverdueItems).length
        = (recipientsOf threeOverdueItems).length
    ∧ (⟨"p@x.com", threeOverdueItems⟩ : GroupedMessage).items
        = threeOverdueItems.filter
            (fun x => x.recipient
              == (⟨"p@x.com", threeOverdueItems⟩ : GroupedMessage).recipient)
    ∧ ((dispatchGrouped threeOverdueItems).filter
        (fun g => g.recipient
          == (⟨"p@x.com", "Overdue", "task A"⟩ : NotifItem).recipient)).length = 1
    ∧ dispatchGrouped threeOverdueItems
        = [⟨"p@x.com", threeOverdueItems⟩]
    ∧ ((dispatchGrouped threeOverdueItems).filter
        (fun g => g.items.length == 1)).length = 0 :=
  grouped_notification threeOverdueItems ⟨"p@x.com", threeOverdueItems⟩
    (by decide) ⟨"p@x.com", "Overdue", "task A"⟩ (by decide)

/-! ## Dispatcher batch escalation -/

/-- Claim C7: for every delivery batch the Dispatcher raises at most one
administrator `ErrorNotification` — exactly one iff the batch is not
itself an `ErrorNotification` batch and its failure rate exceeds the
threshold — never one per individual failure; and an `ErrorNotification`
batch is never escalated recursively and all of its messages are
attempted. -/
theorem batch_escalation (threshold : Nat) (cls : NotifClass)
    (attempt : OutMessage → Bool) (msgs : List OutMessage) :
    (dispatchBatch threshold cls attempt msgs).2 ≤ 1
    ∧ ((dispatchBatch threshold cls attempt msgs).2 = 1
        ↔ cls ≠ NotifClass.errorNotification
          ∧ thresholdExceeded threshold (sendAll attempt msgs) = true)
    ∧ (dispatchBatch threshold NotifClass.errorNotification attempt msgs).2 = 0
    ∧ (dispatchBatch threshold NotifClass.errorNotification
        attempt msgs).1.results.length = msgs.length := by
  refine ⟨?_, ?_, ?_, ?_⟩
  · show escalationCount threshold cls (sendAll attempt msgs) ≤ 1
    unfold escalationCount
    split_ifs <;> omega
  · show escalationCount threshold cls (sendAll attempt msgs) = 1 ↔ _
    unfold escalationCount
    split_ifs with h1 h2
    · simp [h1]
    · simp [h1, h2]
    · simp [h1, h2]
  · show escalationCount threshold NotifClass.errorNotification
      (sendAll attempt msgs) = 0
    unfold escalationCount
    simp
  · show (sendAll attempt msgs).results.length = msgs.length
    simp [sendAll]

/-- Witness for C7 at a concrete all-failing two-message batch. -/
theorem batch_escalation_witness :
    (dispatchBatch 50 NotifClass.overdueReminder
        (fun _ => false) twoMessages).2 ≤ 1
    ∧ ((dispatchBatch 50 NotifClass.overdueReminder
          (fun _ => false) twoMessages).2 = 1
        ↔ NotifClass.overdueReminder ≠ NotifClass.errorNotification
          ∧ thresholdExceeded 50
              (sendAll (fun _ => false) twoMessages) = true)
    ∧ (dispatchBatch 50 NotifClass.errorNotification
        (fun _ => false) twoMessages).2 = 0
    ∧ (dispatchBatch 50 NotifClass.errorNotification
        (fun _ => false) twoMessages).1.results.length
        = twoMessages.length :=
  batch_escalation 50 NotifClass.overdueReminder (fun _ => false) twoMessages

/-! ## Dashboard claims -/

/-- Claim C8: for every list of tasks fetched into the dashboard, the
`Overdue` value of the task-status pie chart data and the `Overdue Tasks`
metric card are the constant 0, independent of any task's due date or
status. -/
theorem dashboard_overdue_constant_zero (tasks : List FrontTask) :
    ((taskStatusData tasks).filter fun e => e.name == "Overdue")
        = [⟨"Overdue", 0, "#ef4444"⟩]
    ∧ (taskStatusData tasks).getLast? = some ⟨"Overdue", 0, "#ef4444"⟩
    ∧ overdueTasksCardValue = 0 := by
  refine ⟨?_, ?_, rfl⟩
  · simp [taskStatusData]
  · simp [taskStatusData]

/-- Claim C9: `handleLogout` always clears the local session — afterwards
`user` is `none` and `isAuthenticated` is `false`, whether the logout API
call succeeded or threw. -/
theorem logout_clears_session (r : Except String Unit) (st : AuthState) :
    (handleLogout r st).user = none
    ∧ (handleLogout r st).isAuthenticated = false := by
  cases r <;> simp [handleLogout]

/-- Claim C10: in signup mode, a mismatched password pair makes
`handleSubmit` set the error `Passwords do not match` and return without
calling the signup API, for every API behaviour. -/
theorem signup_password_mismatch_blocks (api : SignupForm → SignupResponse)
    (fd : SignupForm) (h : fd.password ≠ fd.confirmPassword) :
    handleSubmitSignup api fd
      = { error := "Passwords do not match", loading := false
          signupApiCalled := false, loggedIn := false } := by
  have hb : (fd.password == fd.confirmPassword) = false :=
    beq_eq_false_iff_ne.mpr h
  simp [handleSubmitSignup, hb]

/-- Witness for C10 at a concrete mismatched form. -/
theorem signup_password_mismatch_blocks_witness :
    handleSubmitSignup (fun _ => ⟨true, none, "u"⟩) mismatchedForm
      = { error := "Passwords do not match", loading := false
          signupApiCalled := false, loggedIn := false } :=
  signup_password_mismatch_blocks (fun _ => ⟨true, none, "u"⟩)
    mismatchedForm (by decide)

end BizAuto
